import Mathlib

/-!
Verification development for the OpalSight Sentiment/Trend Analysis and
Alerting Engine.

The repository snapshot ships the database schema (src/database/schema.sql),
the React frontend and deployment material, while the Python analysis engine
itself (normalizer, scorer, extraction engine, trend comparator, alert
generator, orchestrator) is not part of the snapshot.  The engine is therefore
modelled here from the specification; every such definition carries a doc
comment starting with "Modelled from the spec:".  The schema constraints are
embedded directly from src/database/schema.sql.

Rationals stand in for the floating point scores of the implementation.
-/

attribute [local semireducible] Rat.add Rat.mul Rat.inv Rat.sub Rat.ofScientific

/-- Speaker role of a segment (spec section 3, Segment): management versus
analyst, with unresolved speakers labelled unknown. -/
inductive Role
  | management
  | analyst
  | unknown
deriving DecidableEq, Repr

/-- Section tag of a segment (spec section 3, Segment). -/
inductive SectionTag
  | financial
  | product
  | regulatory
  | general
deriving DecidableEq, Repr

/-- Closed set of guidance metrics (spec section 3, GuidanceItem). -/
inductive Metric
  | revenue
  | earnings
  | enrollment
  | regulatory_milestone
  | other
deriving DecidableEq, Repr

/-- Three-step scale used for guidance confidence, key-change magnitude and
alert severity (spec sections 3, 4.4 and 4.5). -/
inductive Level
  | low
  | medium
  | high
deriving DecidableEq, Repr

/-- Trend classification (spec section 3, TrendResult). -/
inductive TrendCategory
  | improving
  | stable
  | declining
  | insufficient_data
deriving DecidableEq, Repr

/-- Alert kinds (spec section 3, AlertRecord). -/
inductive AlertType
  | sentiment_shift
  | confidence_shift
  | guidance_change
deriving DecidableEq, Repr

/-- Modelled from the spec: a normalized unit of transcript text with a
speaker-role label and a section tag (spec section 3, Segment). -/
structure Segment where
  text : String
  speaker_role : Role
  section_tag : SectionTag
deriving DecidableEq, Repr

/-- Whitespace test used by the normalizer model. -/
def isWs (c : Char) : Bool := c.isWhitespace

/-- Splits a character list at newline markers, keeping the accumulator of the
current line. -/
def splitLinesAux : List Char → List Char → List (List Char)
  | [], acc => [acc.reverse]
  | c :: cs, acc =>
      if c = '\n' then acc.reverse :: splitLinesAux cs []
      else splitLinesAux cs (c :: acc)

/-- Splits a string into lines, the speaker-change marker of the model. -/
def splitLines (s : String) : List (List Char) := splitLinesAux s.data []

/-- Removes leading and trailing whitespace from a character list. -/
def trimChars (l : List Char) : List Char :=
  ((l.dropWhile isWs).reverse.dropWhile isWs).reverse

/-- Decides whether the pattern occurs as a contiguous run inside the
haystack. -/
def containsPat (hay pat : List Char) : Bool :=
  match hay with
  | [] => pat.isEmpty
  | _ :: tl => pat.isPrefixOf hay || containsPat tl pat

/-- Lower-cased character data of a string, for case-insensitive matching. -/
def lowerData (s : String) : List Char := s.data.map Char.toLower

/-- Modelled from the spec: the fixed list of forward-looking cue phrases
(spec section 4.2). -/
def cuePhrases : List String :=
  ["expect", "anticipate", "guidance", "target", "outlook", "will be", "plan to"]

/-- Tests whether a segment text contains a forward-looking cue phrase. -/
def hasCuePhrase (text : String) : Bool :=
  cuePhrases.any fun p => containsPat (lowerData text) (lowerData p)

/-- Modelled from the spec: configurable keyword-to-metric table
(spec sections 4.3 and 9). -/
def metricKeywords : List (String × Metric) :=
  [("revenue", Metric.revenue), ("sales", Metric.revenue),
   ("earnings", Metric.earnings), ("eps", Metric.earnings),
   ("enrollment", Metric.enrollment),
   ("milestone", Metric.regulatory_milestone),
   ("approval", Metric.regulatory_milestone)]

/-- First metric whose keyword occurs in the text, when any. -/
def metricOf (text : String) : Option Metric :=
  (metricKeywords.find? fun kv => containsPat (lowerData text) (lowerData kv.1)).map
    (fun kv => kv.2)

/-- Modelled from the spec: keyword-driven section tagging of a segment
(spec section 3 lists financial, product and regulatory tags). -/
def sectionTagOf (text : String) : SectionTag :=
  if ["revenue", "earnings", "margin", "cash", "guidance"].any
      (fun k => containsPat (lowerData text) (lowerData k)) then SectionTag.financial
  else if ["product", "pipeline", "trial", "study"].any
      (fun k => containsPat (lowerData text) (lowerData k)) then SectionTag.product
  else if ["fda", "regulatory", "approval"].any
      (fun k => containsPat (lowerData text) (lowerData k)) then SectionTag.regulatory
  else SectionTag.general

/-- Modelled from the spec: turns one raw line into a segment.  A line that is
blank after trimming yields no segment; a speaker name before a colon is
matched against the management-name list, unresolved speakers are labelled
unknown (spec section 4.1). -/
def mkSegment (names : List String) (line : List Char) : Option Segment :=
  let t := trimChars line
  if t.isEmpty then none
  else
    let pre := t.takeWhile (fun c => c ≠ ':')
    let rest := t.dropWhile (fun c => c ≠ ':')
    match rest with
    | [] => some ⟨String.mk t, Role.unknown, sectionTagOf (String.mk t)⟩
    | _ :: contentRaw =>
        let speaker := String.mk (trimChars pre)
        let body := String.mk (trimChars contentRaw)
        let role := if names.contains speaker then Role.management else Role.unknown
        some ⟨body, role, sectionTagOf body⟩

/-- Modelled from the spec: the Text Normalizer.  Splits raw transcript text
on line markers, drops blank units, labels speaker roles from the
management-name metadata list; empty or whitespace-only input yields the
empty sequence, not an error (spec section 4.1). -/
def normalizeTranscript (raw : String) (mgmtNames : List String) : List Segment :=
  (splitLines raw).filterMap (mkSegment mgmtNames)

/-- Modelled from the spec: the external scoring oracle capability contract,
mapping text to a polarity and confidence pair, or failing (spec section 6). -/
abbrev Oracle := String → Option (ℚ × ℚ)

/-- Segment together with the polarity and confidence the oracle returned. -/
structure ScoredSegment where
  seg : Segment
  polarity : ℚ
  oracle_confidence : ℚ
deriving DecidableEq, Repr

/-- Modelled from the spec: scores every segment through the oracle; a single
oracle failure fails the whole scoring pass (spec sections 4.2 and 7,
ScoringUnavailable). -/
def scoreSegments (oracle : Oracle) : List Segment → Option (List ScoredSegment)
  | [] => some []
  | s :: rest =>
      match oracle s.text, scoreSegments oracle rest with
      | some pc, some tail => some (⟨s, pc.1, pc.2⟩ :: tail)
      | _, _ => none

/-- Length weight of a segment for document-level aggregation. -/
def segWeight (s : Segment) : ℚ := (s.text.length : ℚ)

/-- Modelled from the spec: length-weighted mean of a per-segment quantity,
zero when the weight mass is zero (spec section 4.2). -/
def weightedScore (l : List ScoredSegment) (f : ScoredSegment → ℚ) : ℚ :=
  let w := (l.map fun s => segWeight s.seg).sum
  if w = 0 then 0 else (l.map fun s => segWeight s.seg * f s).sum / w

/-- Plain arithmetic mean, zero for the empty list. -/
def plainMean (l : List ℚ) : ℚ :=
  if l.length = 0 then 0 else l.sum / (l.length : ℚ)

/-- Modelled from the spec: a key quote with its sentiment score and the
index of the segment it came from, the tie-break key (spec section 4.3). -/
structure Quote where
  text : String
  speaker_role : Role
  sentiment_score : ℚ
  seg_index : ℕ
deriving DecidableEq, Repr

/-- Modelled from the spec: one forward-looking guidance statement
(spec section 3, GuidanceItem). -/
structure GuidanceItem where
  metric : Metric
  value : String
  timeframe : String
  confidence : Level
deriving DecidableEq, Repr

/-- Modelled from the spec: the composed per-transcript sentiment record
(spec section 3, SentimentResult). -/
structure SentimentResult where
  overall_sentiment : ℚ
  management_confidence : ℚ
  guidance_sentiment : ℚ
  mgmt_segment_count : ℕ
  positive_count : ℕ
  negative_count : ℕ
  key_quotes : List Quote
  extracted_guidance : List GuidanceItem
deriving DecidableEq, Repr

/-- Configuration of quote extraction (spec section 4.3: configurable maximum,
minimum token count and notable magnitude threshold). -/
structure QuoteConfig where
  maxQuotes : ℕ
  minTokens : ℕ
  notableThreshold : ℚ
deriving DecidableEq, Repr

/-- Modelled from the spec: defaults of quote extraction; maximum 10 quotes
and notable threshold 0.3 are given by the spec, the minimum token count is
only described as configurable and is fixed at 5 here. -/
def defaultQuoteConfig : QuoteConfig := ⟨10, 5, 3/10⟩

/-- Counts maximal whitespace-free runs; the Boolean flag records whether the
scan is inside a word. -/
def tokenCountAux : List Char → Bool → ℕ
  | [], _ => 0
  | c :: cs, inWord =>
      if isWs c then tokenCountAux cs false
      else (if inWord then 0 else 1) + tokenCountAux cs true

/-- Token count of a segment text. -/
def tokenCount (s : String) : ℕ := tokenCountAux s.data false

/-- Modelled from the spec: quote candidacy; management role, non-trivial
length, and either notable score magnitude or a cue phrase
(spec section 4.3). -/
def isQuoteCandidate (cfg : QuoteConfig) (s : ScoredSegment) : Bool :=
  s.seg.speaker_role == Role.management &&
  decide (cfg.minTokens ≤ tokenCount s.seg.text) &&
  (decide (cfg.notableThreshold < |s.polarity|) || hasCuePhrase s.seg.text)

/-- Quote candidates of a scored segment list, indexed from the given start
position so the original segment order is retained on each quote. -/
def quoteCandidates (cfg : QuoteConfig) : ℕ → List ScoredSegment → List Quote
  | _, [] => []
  | i, s :: rest =>
      if isQuoteCandidate cfg s then
        ⟨s.seg.text, s.seg.speaker_role, s.polarity, i⟩ :: quoteCandidates cfg (i + 1) rest
      else quoteCandidates cfg (i + 1) rest

/-- Ranking relation on quotes: larger score magnitude first, ties resolved
toward the earlier segment (spec section 4.3). -/
def quoteLE (a b : Quote) : Bool :=
  decide (|b.sentiment_score| < |a.sentiment_score| ∨
    (|a.sentiment_score| = |b.sentiment_score| ∧ a.seg_index ≤ b.seg_index))

/-- Inserts a quote into a ranked list, keeping the ranking. -/
def insertQuote (q : Quote) : List Quote → List Quote
  | [] => [q]
  | x :: xs => if quoteLE q x then q :: x :: xs else x :: insertQuote q xs

/-- Insertion sort by the quote ranking relation. -/
def sortQuotes : List Quote → List Quote
  | [] => []
  | q :: qs => insertQuote q (sortQuotes qs)

/-- Modelled from the spec: quote extraction; candidates ranked by score
magnitude with the segment-order tie-break and truncated to the configured
maximum (spec section 4.3). -/
def extractQuotes (cfg : QuoteConfig) (scored : List ScoredSegment) : List Quote :=
  (sortQuotes (quoteCandidates cfg 0 scored)).take cfg.maxQuotes

/-- Modelled from the spec: fixed date and quarter patterns used for
timeframe extraction (spec section 4.3). -/
def timeframePatterns : List String :=
  ["q1", "q2", "q3", "q4", "fy", "next quarter", "next year",
   "this quarter", "this year", "2024", "2025", "2026"]

/-- First timeframe pattern occurring in the text, when any. -/
def timeframeOf (text : String) : Option String :=
  timeframePatterns.find? fun p => containsPat (lowerData text) (lowerData p)

/-- Digit characters of a string, in order. -/
def digitsOf (s : String) : List Char := s.data.filter Char.isDigit

/-- Whether the text carries a numeric value. -/
def hasNumeric (s : String) : Bool := !(digitsOf s).isEmpty

/-- Modelled from the spec: guidance confidence is high with both a numeric
value and an explicit timeframe, medium with exactly one, low otherwise
(spec section 4.3). -/
def guidanceConfidence (hasNum hasTf : Bool) : Level :=
  if hasNum && hasTf then Level.high
  else if hasNum || hasTf then Level.medium
  else Level.low

/-- Modelled from the spec: parses a guidance segment into a GuidanceItem when
it carries both a cue phrase and a recognized metric keyword
(spec section 4.3); the segment text stands as the value text. -/
def extractGuidanceItem (s : ScoredSegment) : Option GuidanceItem :=
  if hasCuePhrase s.seg.text then
    match metricOf s.seg.text with
    | some m =>
        let tf := timeframeOf s.seg.text
        some ⟨m, s.seg.text, tf.getD "unspecified",
          guidanceConfidence (hasNumeric s.seg.text) tf.isSome⟩
    | none => none
  else none

/-- Guidance items of a scored segment list, in segment order. -/
def extractGuidance (scored : List ScoredSegment) : List GuidanceItem :=
  scored.filterMap extractGuidanceItem

/-- Guidance-sentiment restriction: financial or product section tag together
with a forward-looking cue phrase (spec section 4.2). -/
def isGuidanceSeg (s : ScoredSegment) : Bool :=
  (s.seg.section_tag == SectionTag.financial || s.seg.section_tag == SectionTag.product) &&
  hasCuePhrase s.seg.text

/-- Modelled from the spec: the Sentiment Scorer aggregation plus the
Extraction Engine output, composed into one SentimentResult
(spec sections 4.2 and 4.3).  Document scores are length-weighted means over
management-role segments and are 0.0 with a zero segment count when no such
segment exists. -/
def composeSentiment (cfg : QuoteConfig) (scored : List ScoredSegment) : SentimentResult :=
  let mgmt := scored.filter fun s => s.seg.speaker_role == Role.management
  ⟨weightedScore mgmt (fun s => s.polarity),
   weightedScore mgmt (fun s => s.oracle_confidence),
   plainMean ((scored.filter isGuidanceSeg).map fun s => s.polarity),
   mgmt.length,
   (mgmt.filter fun s => decide (0 < s.polarity)).length,
   (mgmt.filter fun s => decide (s.polarity < 0)).length,
   extractQuotes cfg scored,
   extractGuidance scored⟩

/-- Modelled from the spec: one key change produced by the guidance diff
(spec section 3, TrendResult). -/
structure KeyChange where
  description : String
  magnitude : Level
deriving DecidableEq, Repr

/-- Modelled from the spec: the per-company trend record
(spec section 3, TrendResult). -/
structure TrendResult where
  trend_category : TrendCategory
  sentiment_change : Option ℚ
  confidence_change : Option ℚ
  key_changes : List KeyChange
  notable_quotes : List Quote
  comparison_window : ℕ
deriving DecidableEq, Repr

/-- Default comparison window of the Trend Comparator (spec section 4.4). -/
def comparisonWindow : ℕ := 4

/-- Arithmetic mean of a rational list, meaningful on nonempty input. -/
def mean (l : List ℚ) : ℚ := l.sum / (l.length : ℚ)

/-- Numeric reading of a digit list. -/
def natOfDigits (l : List Char) : ℕ :=
  l.foldl (fun n c => 10 * n + (c.toNat - 48)) 0

/-- Modelled from the spec: numeric parse of a guidance value text; the digits
present in the text are read as a number, texts without digits are not
numeric (spec section 4.3 leaves the exact number format open). -/
def parseNumeric (s : String) : Option ℚ :=
  let ds := digitsOf s
  if ds.isEmpty then none else some ((natOfDigits ds : ℕ) : ℚ)

/-- Modelled from the spec: a value change exceeding ten percent of the prior
value, defined only when both values are numeric (spec section 4.4). -/
def valueChangeExceedsTenPercent (curVal prevVal : Option ℚ) : Bool :=
  match curVal, prevVal with
  | some a, some b => decide (|b| / 10 < |a - b|)
  | _, _ => false

/-- First guidance item of the given metric, when any. -/
def findMetric (m : Metric) (gs : List GuidanceItem) : Option GuidanceItem :=
  gs.find? fun g => g.metric == m

/-- Enumeration of the closed metric set, for the per-metric diff. -/
def metricList : List Metric :=
  [Metric.revenue, Metric.earnings, Metric.enrollment,
   Metric.regulatory_milestone, Metric.other]

/-- Modelled from the spec: the per-metric guidance diff; a metric entering or
leaving the guidance set is a high-magnitude change, a changed value or
confidence is medium when the values are numeric and differ by more than ten
percent, low otherwise, and an unchanged item produces no entry
(spec section 4.4). -/
def diffMetric (cur prior : Option GuidanceItem) : List KeyChange :=
  match cur, prior with
  | none, none => []
  | some _, none => [⟨"guidance metric added", Level.high⟩]
  | none, some _ => [⟨"guidance metric dropped", Level.high⟩]
  | some g, some p =>
      if g.value == p.value && g.confidence == p.confidence then []
      else if valueChangeExceedsTenPercent (parseNumeric g.value) (parseNumeric p.value) then
        [⟨"guidance value changed", Level.medium⟩]
      else [⟨"guidance changed", Level.low⟩]

/-- Modelled from the spec: guidance diff of the current items against the
most recent prior period, per metric (spec section 4.4). -/
def diffGuidance (cur prior : List GuidanceItem) : List KeyChange :=
  (metricList.map fun m => diffMetric (findMetric m cur) (findMetric m prior)).flatten

/-- Modelled from the spec: notable quotes are the current quotes above 0.3
score magnitude, capped at 5 (spec section 4.4). -/
def notableQuotes (qs : List Quote) : List Quote :=
  (qs.filter fun q => decide ((3 : ℚ)/10 < |q.sentiment_score|)).take 5

/-- Modelled from the spec: the Trend Comparator.  Empty history yields
insufficient_data with window 0 and no change values; otherwise the baseline
is the mean of the available history up to the window, the changes are
current minus baseline, and the category follows the conjunctive 0.1
threshold policy (spec section 4.4). -/
def compareTrend (current : SentimentResult) (history : List SentimentResult) : TrendResult :=
  match history with
  | [] => ⟨TrendCategory.insufficient_data, none, none, [], [], 0⟩
  | prev :: _ =>
      let window := history.take comparisonWindow
      let sentimentChange :=
        current.overall_sentiment - mean (window.map fun h => h.overall_sentiment)
      let confidenceChange :=
        current.management_confidence - mean (window.map fun h => h.management_confidence)
      let category :=
        if 1/10 < sentimentChange ∧ 0 ≤ confidenceChange then TrendCategory.improving
        else if sentimentChange < -(1/10) ∧ confidenceChange ≤ 0 then TrendCategory.declining
        else TrendCategory.stable
      ⟨category, some sentimentChange, some confidenceChange,
       diffGuidance current.extracted_guidance prev.extracted_guidance,
       notableQuotes current.key_quotes,
       window.length⟩

/-- Modelled from the spec: a per-user, per-company watch threshold entry
(spec section 3, WatchThreshold). -/
structure WatchThreshold where
  user_id : ℕ
  alert_threshold : ℚ
deriving DecidableEq, Repr

/-- Modelled from the spec: an emitted alert record
(spec section 3, AlertRecord). -/
structure AlertRecord where
  alert_type : AlertType
  severity : Level
  message : String
  resolved : Bool
deriving DecidableEq, Repr

/-- Global default alert threshold 0.2 (spec sections 3 and 4.5, and the
watchlists column default in src/database/schema.sql line 108). -/
def globalDefaultThreshold : ℚ := 1/5

/-- Modelled from the spec: severity of a shift alert; beyond twice the
threshold is high, beyond the threshold is medium, low otherwise
(spec section 4.5). -/
def severityFor (magnitude threshold : ℚ) : Level :=
  if 2 * threshold < magnitude then Level.high
  else if threshold < magnitude then Level.medium
  else Level.low

/-- Shift alert of one kind for one threshold entry: emitted exactly when the
change magnitude reaches the threshold (spec section 4.5). -/
def shiftAlerts (change : Option ℚ) (ty : AlertType) (msg : String) (th : ℚ) : List AlertRecord :=
  match change with
  | some c => if th ≤ |c| then [⟨ty, severityFor |c| th, msg, false⟩] else []
  | none => []

/-- Modelled from the spec: the alerts one qualifying threshold entry
produces; sentiment and confidence shifts against the threshold, and a
guidance-change alert, mirroring the high diff magnitude, whenever some key
change is high regardless of the threshold value (spec section 4.5). -/
def alertsForThreshold (t : TrendResult) (th : ℚ) : List AlertRecord :=
  shiftAlerts t.sentiment_change AlertType.sentiment_shift "significant sentiment shift" th ++
  shiftAlerts t.confidence_change AlertType.confidence_shift "significant confidence shift" th ++
  (if t.key_changes.any fun k => k.magnitude == Level.high then
    [⟨AlertType.guidance_change, Level.high, "material guidance change", false⟩]
  else [])

/-- Modelled from the spec: an empty watch set falls back to the global
default threshold 0.2 (spec section 4.5). -/
def effectiveThresholds (ths : List WatchThreshold) : List WatchThreshold :=
  if ths.isEmpty then [⟨0, globalDefaultThreshold⟩] else ths

/-- Modelled from the spec: the Alert Generator.  Nothing is emitted on
insufficient_data; otherwise every entry with a positive threshold
contributes its alerts (spec section 4.5). -/
def generateAlerts (t : TrendResult) (ths : List WatchThreshold) : List AlertRecord :=
  if t.trend_category == TrendCategory.insufficient_data then []
  else
    (((effectiveThresholds ths).filter fun w => decide (0 < w.alert_threshold)).map
      fun w => alertsForThreshold t w.alert_threshold).flatten

/-- Modelled from the spec: the transcript input of one analyze call, raw text
plus the management-name metadata list (spec sections 3 and 4.1). -/
structure Transcript where
  raw_text : String
  management_names : List String
deriving DecidableEq, Repr

/-- Modelled from the spec: one history-provider entry as delivered, carrying
the fields the trend math reads; a field the provider failed to supply is
absent (spec sections 6 and 7, MalformedHistory). -/
structure RawHistoryEntry where
  overall_sentiment : Option ℚ
  management_confidence : Option ℚ
  extracted_guidance : List GuidanceItem
deriving DecidableEq, Repr

/-- Typed error outcomes that abort an analyze call (spec section 7). -/
inductive AnalysisError
  | scoring_unavailable
  | malformed_history
deriving DecidableEq, Repr

/-- Composed result of one analyze call (spec section 4.6). -/
structure AnalysisResult where
  sentiment : SentimentResult
  trend : TrendResult
  alerts : List AlertRecord
deriving DecidableEq, Repr

/-- Modelled from the spec: validation of one history entry; entries missing a
required field are malformed (spec section 7). -/
def validateEntry (e : RawHistoryEntry) : Option SentimentResult :=
  match e.overall_sentiment, e.management_confidence with
  | some s, some c => some ⟨s, c, 0, 0, 0, 0, [], e.extracted_guidance⟩
  | _, _ => none

/-- Validation of the whole history snapshot; one malformed entry is fatal
(spec section 7). -/
def validateHistory : List RawHistoryEntry → Option (List SentimentResult)
  | [] => some []
  | e :: rest =>
      match validateEntry e, validateHistory rest with
      | some s, some tail => some (s :: tail)
      | _, _ => none

/-- Modelled from the spec: a threshold entry is valid when it lies in the
unit interval; others are skipped, not fatal (spec section 7,
InvalidThreshold). -/
def validThreshold (w : WatchThreshold) : Bool :=
  decide (0 ≤ w.alert_threshold ∧ w.alert_threshold ≤ 1)

/-- Modelled from the spec: the Analysis Orchestrator.  Pure composition
normalize, score and extract, validate history, compare, alert; fatal
conditions abort with one typed error and no partial result
(spec sections 4.6 and 7). -/
def analyze (oracle : Oracle) (t : Transcript) (history : List RawHistoryEntry)
    (thresholds : List WatchThreshold) : Except AnalysisError AnalysisResult :=
  let segments := normalizeTranscript t.raw_text t.management_names
  match scoreSegments oracle segments with
  | none => Except.error AnalysisError.scoring_unavailable
  | some scored =>
      match validateHistory history with
      | none => Except.error AnalysisError.malformed_history
      | some hist =>
          let sentiment := composeSentiment defaultQuoteConfig scored
          let trend := compareTrend sentiment hist
          let alerts := generateAlerts trend (thresholds.filter validThreshold)
          Except.ok ⟨sentiment, trend, alerts⟩

/-- Columns of the trend_analysis table governed by its CHECK constraint;
the trend_category column is nullable (src/database/schema.sql
lines 60 to 71). -/
structure TrendAnalysisRow where
  trend_category : Option String
deriving DecidableEq, Repr

/-- Columns of the alerts table governed by its CHECK constraint; the
severity column is nullable (src/database/schema.sql lines 114 to 123). -/
structure AlertsRow where
  severity : Option String
deriving DecidableEq, Repr

/-- SQL CHECK semantics of an IN-list condition on a nullable column: a row is
rejected only when the condition evaluates to false, and on a NULL value the
condition is unknown, so the row passes. -/
def sqlCheckIn (v : Option String) (allowed : List String) : Bool :=
  match v with
  | none => true
  | some s => allowed.contains s

/-- Allowed trend_category strings of the trend_analysis CHECK constraint
(src/database/schema.sql line 64). -/
def trendCategoryAllowed : List String :=
  ["improving", "stable", "declining", "insufficient_data"]

/-- Allowed severity strings of the alerts CHECK constraint
(src/database/schema.sql line 118). -/
def severityAllowed : List String := ["low", "medium", "high"]

/-- Acceptance of a trend_analysis row by its CHECK constraint. -/
def trendRowAccepted (r : TrendAnalysisRow) : Bool :=
  sqlCheckIn r.trend_category trendCategoryAllowed

/-- Acceptance of an alerts row by its CHECK constraint. -/
def alertRowAccepted (r : AlertsRow) : Bool :=
  sqlCheckIn r.severity severityAllowed

/-- Ranking order claimed for the key-quote list: strictly larger score
magnitude first, equal magnitudes resolved by the earlier segment index. -/
def rankedBefore (a b : Quote) : Prop :=
  |b.sentiment_score| < |a.sentiment_score| ∨
    (|a.sentiment_score| = |b.sentiment_score| ∧ a.seg_index < b.seg_index)

/-- Non-strict ranking relation realized by the insertion sort. -/
def rankedLE (a b : Quote) : Prop :=
  |b.sentiment_score| < |a.sentiment_score| ∨
    (|a.sentiment_score| = |b.sentiment_score| ∧ a.seg_index ≤ b.seg_index)

/-- C2: with empty company history the Trend Comparator returns
insufficient_data with comparison window 0 and leaves both change values
unset, whatever the current SentimentResult holds. -/
theorem trend_empty_history_insufficient (cur : SentimentResult) :
    (compareTrend cur []).trend_category = TrendCategory.insufficient_data ∧
    (compareTrend cur []).comparison_window = 0 ∧
    (compareTrend cur []).sentiment_change = none ∧
    (compareTrend cur []).confidence_change = none :=
  ⟨rfl, rfl, rfl, rfl⟩

/-- C10 counterexample: a trend_analysis row and an alerts row whose checked
column is NULL pass their CHECK constraints while carrying no value of the
claimed enumerations, so out-of-enum states are representable. -/
theorem schema_check_null_counterexample :
    trendRowAccepted ⟨none⟩ = true ∧
    ¬ (∃ s ∈ trendCategoryAllowed, (⟨none⟩ : TrendAnalysisRow).trend_category = some s) ∧
    alertRowAccepted ⟨none⟩ = true ∧
    ¬ (∃ s ∈ severityAllowed, (⟨none⟩ : AlertsRow).severity = some s) := by
  refine ⟨rfl, ?_, rfl, ?_⟩ <;> rintro ⟨s, _, h⟩ <;> exact Option.noConfusion h

/-- C10 amended: the CHECK constraints confine every non-NULL trend_category
to the four trend strings and every non-NULL severity to the three severity
strings, and reject any other non-NULL value; NULL itself stays storable
because the columns are nullable and a CHECK passes on NULL. -/
theorem schema_check_enum_bounds (tr : TrendAnalysisRow) (ar : AlertsRow) :
    (trendRowAccepted tr = true → ∀ v : String, tr.trend_category = some v →
      v ∈ trendCategoryAllowed) ∧
    (alertRowAccepted ar = true → ∀ v : String, ar.severity = some v →
      v ∈ severityAllowed) ∧
    (∀ v : String, v ∉ trendCategoryAllowed → trendRowAccepted ⟨some v⟩ = false) ∧
    (∀ v : String, v ∉ severityAllowed → alertRowAccepted ⟨some v⟩ = false) := by
  refine ⟨?_, ?_, ?_, ?_⟩
  · intro hacc v hv
    rw [trendRowAccepted, hv] at hacc
    simpa [sqlCheckIn] using hacc
  · intro hacc v hv
    rw [alertRowAccepted, hv] at hacc
    simpa [sqlCheckIn] using hacc
  · intro v hv
    simpa [trendRowAccepted, sqlCheckIn] using hv
  · intro v hv
    simpa [alertRowAccepted, sqlCheckIn] using hv

/-- Witness for the amended C10 theorem at concrete rows. -/
theorem schema_check_enum_bounds_witness :
    trendRowAccepted ⟨some "stable"⟩ = true ∧
    "stable" ∈ trendCategoryAllowed ∧
    alertRowAccepted ⟨some "high"⟩ = true ∧
    "high" ∈ severityAllowed :=
  ⟨by decide,
   (schema_check_enum_bounds ⟨some "stable"⟩ ⟨some "high"⟩).1 (by decide) "stable" rfl,
   by decide,
   (schema_check_enum_bounds ⟨some "stable"⟩ ⟨some "high"⟩).2.1 (by decide) "high" rfl⟩

/-- C8: analyze is deterministic; equal input triples (with the same oracle)
yield the same composed result, component by component, in the same order. -/
theorem analyze_deterministic (o o2 : Oracle) (t t2 : Transcript)
    (h h2 : List RawHistoryEntry) (w w2 : List WatchThreshold)
    (ho : o = o2) (ht : t = t2) (hh : h = h2) (hw : w = w2) :
    analyze o t h w = analyze o2 t2 h2 w2 ∧
    (analyze o t h w).map AnalysisResult.sentiment =
      (analyze o2 t2 h2 w2).map AnalysisResult.sentiment ∧
    (analyze o t h w).map AnalysisResult.trend =
      (analyze o2 t2 h2 w2).map AnalysisResult.trend ∧
    (analyze o t h w).map AnalysisResult.alerts =
      (analyze o2 t2 h2 w2).map AnalysisResult.alerts := by
  subst ho ht hh hw
  exact ⟨rfl, rfl, rfl, rfl⟩

/-- Concrete oracle used by witnesses: every text scores polarity 0.5 at
confidence 0.6. -/
def oracleW : Oracle := fun _ => some (1/2, 3/5)

/-- Concrete transcript used by witnesses. -/
def transcriptW : Transcript :=
  ⟨"CEO: We expect revenue growth this quarter", ["CEO"]⟩

/-- Witness for C8 at a concrete input triple. -/
theorem analyze_deterministic_witness :
    analyze oracleW transcriptW [] [] = analyze oracleW transcriptW [] [] :=
  (analyze_deterministic oracleW oracleW transcriptW transcriptW [] [] [] []
    rfl rfl rfl rfl).1

/-- Shape of the Trend Comparator output on nonempty history, by unfolding. -/
theorem compareTrend_cons (cur prev : SentimentResult) (rest : List SentimentResult) :
    compareTrend cur (prev :: rest) =
      ⟨if 1/10 < cur.overall_sentiment -
            mean (((prev :: rest).take comparisonWindow).map fun p => p.overall_sentiment) ∧
          0 ≤ cur.management_confidence -
            mean (((prev :: rest).take comparisonWindow).map fun p => p.management_confidence)
        then TrendCategory.improving
        else if cur.overall_sentiment -
            mean (((prev :: rest).take comparisonWindow).map fun p => p.overall_sentiment) <
              -(1/10) ∧
          cur.management_confidence -
            mean (((prev :: rest).take comparisonWindow).map fun p => p.management_confidence) ≤ 0
        then TrendCategory.declining
        else TrendCategory.stable,
       some (cur.overall_sentiment -
         mean (((prev :: rest).take comparisonWindow).map fun p => p.overall_sentiment)),
       some (cur.management_confidence -
         mean (((prev :: rest).take comparisonWindow).map fun p => p.management_confidence)),
       diffGuidance cur.extracted_guidance prev.extracted_guidance,
       notableQuotes cur.key_quotes,
       ((prev :: rest).take comparisonWindow).length⟩ := rfl

/-- C1: on nonempty history within the comparison window the Trend Comparator
sets the change values to current minus the arithmetic mean of the history,
and classifies improving exactly on sentiment change above 0.1 with
nonnegative confidence change, declining exactly on sentiment change below
minus 0.1 with nonpositive confidence change, and stable in every other
case. -/
theorem trend_baseline_classification (cur : SentimentResult)
    (hist : List SentimentResult) (hne : hist ≠ [])
    (hlen : hist.length ≤ comparisonWindow) :
    (compareTrend cur hist).sentiment_change =
      some (cur.overall_sentiment - mean (hist.map fun p => p.overall_sentiment)) ∧
    (compareTrend cur hist).confidence_change =
      some (cur.management_confidence - mean (hist.map fun p => p.management_confidence)) ∧
    ((compareTrend cur hist).trend_category = TrendCategory.improving ↔
      (1/10 < cur.overall_sentiment - mean (hist.map fun p => p.overall_sentiment) ∧
        0 ≤ cur.management_confidence - mean (hist.map fun p => p.management_confidence))) ∧
    ((compareTrend cur hist).trend_category = TrendCategory.declining ↔
      (cur.overall_sentiment - mean (hist.map fun p => p.overall_sentiment) < -(1/10) ∧
        cur.management_confidence - mean (hist.map fun p => p.management_confidence) ≤ 0)) ∧
    ((compareTrend cur hist).trend_category = TrendCategory.stable ↔
      (¬(1/10 < cur.overall_sentiment - mean (hist.map fun p => p.overall_sentiment) ∧
          0 ≤ cur.management_confidence - mean (hist.map fun p => p.management_confidence)) ∧
        ¬(cur.overall_sentiment - mean (hist.map fun p => p.overall_sentiment) < -(1/10) ∧
          cur.management_confidence - mean (hist.map fun p => p.management_confidence) ≤ 0))) := by
  obtain ⟨prev, rest, rfl⟩ := List.exists_cons_of_ne_nil hne
  rw [compareTrend_cons, List.take_of_length_le hlen]
  set sc := cur.overall_sentiment - mean ((prev :: rest).map fun p => p.overall_sentiment)
    with hscdef
  set cc := cur.management_confidence -
      mean ((prev :: rest).map fun p => p.management_confidence) with hccdef
  refine ⟨rfl, rfl, ?_, ?_, ?_⟩
  · split_ifs with h1 h2
    · exact iff_of_true rfl h1
    · exact iff_of_false (by simp) h1
    · exact iff_of_false (by simp) h1
  · split_ifs with h1 h2
    · exact iff_of_false (by simp) (fun hq => by linarith [h1.1, hq.1])
    · exact iff_of_true rfl h2
    · exact iff_of_false (by simp) h2
  · split_ifs with h1 h2
    · exact iff_of_false (by simp) (fun h => h.1 h1)
    · exact iff_of_false (by simp) (fun h => h.2 h2)
    · exact iff_of_true rfl ⟨h1, h2⟩

/-- Concrete current result used by the C1 witness: overall sentiment 0.45,
management confidence 0.02. -/
def currentW : SentimentResult := ⟨9/20, 1/50, 0, 0, 0, 0, [], []⟩

/-- Concrete one-point history used by the C1 witness: prior overall
sentiment 0.10, prior confidence 0. -/
def historyW : List SentimentResult := [⟨1/10, 0, 0, 0, 0, 0, [], []⟩]

/-- Witness for C1 at the spec scenario: sentiment change 0.35 with
nonnegative confidence change classifies improving. -/
theorem trend_baseline_classification_witness :
    historyW ≠ [] ∧ historyW.length ≤ comparisonWindow ∧
    (compareTrend currentW historyW).trend_category = TrendCategory.improving :=
  ⟨by decide, by decide, by
    have h := trend_baseline_classification currentW historyW (by decide) (by decide)
    exact h.2.2.1.mpr (by decide)⟩

/-- Membership-by-type characterisation of the alerts one threshold entry
produces. -/
theorem alertsForThreshold_mem_types (t : TrendResult) (sc cc th : ℚ)
    (hs : t.sentiment_change = some sc) (hc : t.confidence_change = some cc) :
    ((∃ a ∈ alertsForThreshold t th, a.alert_type = AlertType.sentiment_shift) ↔
      th ≤ |sc|) ∧
    ((∃ a ∈ alertsForThreshold t th, a.alert_type = AlertType.confidence_shift) ↔
      th ≤ |cc|) ∧
    ((∃ a ∈ alertsForThreshold t th, a.alert_type = AlertType.guidance_change) ↔
      ∃ k ∈ t.key_changes, k.magnitude = Level.high) := by
  unfold alertsForThreshold shiftAlerts
  rw [hs, hc]
  refine ⟨?_, ?_, ?_⟩ <;>
    (split_ifs <;>
      simp_all [List.any_eq_true, beq_iff_eq, or_and_right, exists_or,
        and_assoc, exists_and_left, exists_eq_left])

/-- Flattened-membership characterisation of the Alert Generator output. -/
theorem mem_generateAlerts (t : TrendResult) (ths : List WatchThreshold)
    (hcat : t.trend_category ≠ TrendCategory.insufficient_data) (a : AlertRecord) :
    a ∈ generateAlerts t ths ↔
      ∃ w ∈ effectiveThresholds ths, 0 < w.alert_threshold ∧
        a ∈ alertsForThreshold t w.alert_threshold := by
  have hb : (t.trend_category == TrendCategory.insufficient_data) = false := by
    simp [beq_iff_eq, hcat]
  unfold generateAlerts
  rw [hb]
  simp only [Bool.false_eq_true, if_false, List.mem_flatten, List.mem_map,
    List.mem_filter, decide_eq_true_eq]
  constructor
  · rintro ⟨l, ⟨w, ⟨hw, hpos⟩, rfl⟩, ha⟩
    exact ⟨w, hw, hpos, ha⟩
  · rintro ⟨w, hw, hpos, ha⟩
    exact ⟨_, ⟨w, ⟨hw, hpos⟩, rfl⟩, ha⟩

/-- C3: for a computed trend, the generator emits a sentiment_shift exactly
when some positive watch threshold is reached by the absolute sentiment
change, a confidence_shift exactly when one is reached by the absolute
confidence change, a guidance_change exactly when a high-magnitude key change
exists and some positive threshold entry is active at all, whatever its
value; on insufficient_data nothing is emitted. -/
theorem alert_generator_emission (t : TrendResult) (sc cc : ℚ)
    (ths : List WatchThreshold)
    (hs : t.sentiment_change = some sc) (hc : t.confidence_change = some cc)
    (hcat : t.trend_category ≠ TrendCategory.insufficient_data) :
    ((∃ a ∈ generateAlerts t ths, a.alert_type = AlertType.sentiment_shift) ↔
      ∃ w ∈ effectiveThresholds ths, 0 < w.alert_threshold ∧
        w.alert_threshold ≤ |sc|) ∧
    ((∃ a ∈ generateAlerts t ths, a.alert_type = AlertType.confidence_shift) ↔
      ∃ w ∈ effectiveThresholds ths, 0 < w.alert_threshold ∧
        w.alert_threshold ≤ |cc|) ∧
    ((∃ a ∈ generateAlerts t ths, a.alert_type = AlertType.guidance_change) ↔
      ((∃ w ∈ effectiveThresholds ths, 0 < w.alert_threshold) ∧
        ∃ k ∈ t.key_changes, k.magnitude = Level.high)) ∧
    (∀ t2 : TrendResult, t2.trend_category = TrendCategory.insufficient_data →
      generateAlerts t2 ths = []) := by
  refine ⟨?_, ?_, ?_, ?_⟩
  · constructor
    · rintro ⟨a, ha, hty⟩
      obtain ⟨w, hw, hpos, hmem⟩ := (mem_generateAlerts t ths hcat a).mp ha
      exact ⟨w, hw, hpos,
        (alertsForThreshold_mem_types t sc cc w.alert_threshold hs hc).1.mp
          ⟨a, hmem, hty⟩⟩
    · rintro ⟨w, hw, hpos, hle⟩
      obtain ⟨a, ha, hty⟩ :=
        (alertsForThreshold_mem_types t sc cc w.alert_threshold hs hc).1.mpr hle
      exact ⟨a, (mem_generateAlerts t ths hcat a).mpr ⟨w, hw, hpos, ha⟩, hty⟩
  · constructor
    · rintro ⟨a, ha, hty⟩
      obtain ⟨w, hw, hpos, hmem⟩ := (mem_generateAlerts t ths hcat a).mp ha
      exact ⟨w, hw, hpos,
        (alertsForThreshold_mem_types t sc cc w.alert_threshold hs hc).2.1.mp
          ⟨a, hmem, hty⟩⟩
    · rintro ⟨w, hw, hpos, hle⟩
      obtain ⟨a, ha, hty⟩ :=
        (alertsForThreshold_mem_types t sc cc w.alert_threshold hs hc).2.1.mpr hle
      exact ⟨a, (mem_generateAlerts t ths hcat a).mpr ⟨w, hw, hpos, ha⟩, hty⟩
  · constructor
    · rintro ⟨a, ha, hty⟩
      obtain ⟨w, hw, hpos, hmem⟩ := (mem_generateAlerts t ths hcat a).mp ha
      exact ⟨⟨w, hw, hpos⟩,
        (alertsForThreshold_mem_types t sc cc w.alert_threshold hs hc).2.2.mp
          ⟨a, hmem, hty⟩⟩
    · rintro ⟨⟨w, hw, hpos⟩, hk⟩
      obtain ⟨a, ha, hty⟩ :=
        (alertsForThreshold_mem_types t sc cc w.alert_threshold hs hc).2.2.mpr hk
      exact ⟨a, (mem_generateAlerts t ths hcat a).mpr ⟨w, hw, hpos, ha⟩, hty⟩
  · intro t2 h2
    unfold generateAlerts
    simp [h2]

/-- Concrete declining trend used by alert witnesses: sentiment change
minus 0.30, confidence change minus 0.05, no key changes. -/
def trendW : TrendResult :=
  ⟨TrendCategory.declining, some (-(3/10)), some (-(1/20)), [], [], 1⟩

/-- Witness for C3 at a concrete trend and threshold list. -/
theorem alert_generator_emission_witness :
    trendW.sentiment_change = some (-(3/10)) ∧
    trendW.trend_category ≠ TrendCategory.insufficient_data ∧
    ((∃ a ∈ generateAlerts trendW [⟨1, 1/5⟩], a.alert_type = AlertType.sentiment_shift) ↔
      ∃ w ∈ effectiveThresholds [⟨1, 1/5⟩], 0 < w.alert_threshold ∧
        w.alert_threshold ≤ |(-(3/10) : ℚ)|) :=
  ⟨rfl, by decide,
    (alert_generator_emission trendW (-(3/10)) (-(1/20)) [⟨1, 1/5⟩]
      rfl rfl (by decide)).1⟩

/-- Band characterisation of the severity mapping for a positive threshold. -/
theorem severityFor_bands (m th : ℚ) (hth : 0 < th) :
    (severityFor m th = Level.high ↔ 2 * th < m) ∧
    (severityFor m th = Level.medium ↔ (th < m ∧ ¬(2 * th < m))) ∧
    (severityFor m th = Level.low ↔ ¬(th < m)) := by
  unfold severityFor
  split_ifs with hA hB
  · refine ⟨iff_of_true rfl hA, iff_of_false (by simp) ?_, iff_of_false (by simp) ?_⟩
    · rintro ⟨_, hn⟩; exact hn hA
    · intro hn; exact hn (by linarith)
  · exact ⟨iff_of_false (by simp) hA, iff_of_true rfl ⟨hB, hA⟩,
      iff_of_false (by simp) (fun hn => hn hB)⟩
  · exact ⟨iff_of_false (by simp) hA, iff_of_false (by simp) (fun h => hB h.1),
      iff_of_true rfl hB⟩

/-- C4 counterexample: at the spec scenario, sentiment change minus 0.30
against threshold 0.2, the generator emits exactly one sentiment_shift alert
and its severity is medium, not high, because 0.30 does not exceed twice the
threshold 0.4. -/
theorem alert_severity_scenario_counterexample :
    (generateAlerts (compareTrend ⟨-(3/10), -(1/20), 0, 0, 0, 0, [], []⟩
        [⟨0, 0, 0, 0, 0, 0, [], []⟩]) [⟨1, 1/5⟩]).map
      (fun a => (a.alert_type, a.severity)) =
      [(AlertType.sentiment_shift, Level.medium)] ∧
    Level.medium ≠ Level.high := by
  exact ⟨by decide, by decide⟩

/-- C4 amended: an emitted shift alert has severity high exactly beyond twice
the positive threshold, medium exactly beyond the threshold but within twice
it, low otherwise; a guidance_change alert mirrors the high diff magnitude;
and the scenario with sentiment change minus 0.30 against threshold 0.2
produces exactly one sentiment_shift alert, of severity medium. -/
theorem alert_severity_policy (t : TrendResult) (sc cc th : ℚ) (a : AlertRecord)
    (hs : t.sentiment_change = some sc) (hc : t.confidence_change = some cc)
    (hth : 0 < th) (ha : a ∈ alertsForThreshold t th) :
    (a.alert_type = AlertType.sentiment_shift →
      ((a.severity = Level.high ↔ 2 * th < |sc|) ∧
       (a.severity = Level.medium ↔ (th < |sc| ∧ ¬(2 * th < |sc|))) ∧
       (a.severity = Level.low ↔ ¬(th < |sc|)))) ∧
    (a.alert_type = AlertType.confidence_shift →
      ((a.severity = Level.high ↔ 2 * th < |cc|) ∧
       (a.severity = Level.medium ↔ (th < |cc| ∧ ¬(2 * th < |cc|))) ∧
       (a.severity = Level.low ↔ ¬(th < |cc|)))) ∧
    (a.alert_type = AlertType.guidance_change → a.severity = Level.high) ∧
    (generateAlerts (compareTrend ⟨-(3/10), -(1/20), 0, 0, 0, 0, [], []⟩
        [⟨0, 0, 0, 0, 0, 0, [], []⟩]) [⟨1, 1/5⟩] =
      [⟨AlertType.sentiment_shift, Level.medium, "significant sentiment shift",
        false⟩]) := by
  unfold alertsForThreshold at ha
  rw [hs, hc] at ha
  simp only [shiftAlerts] at ha
  refine ⟨?_, ?_, ?_, by decide⟩ <;> intro hty
  · rcases List.mem_append.mp ha with h12 | h3
    · rcases List.mem_append.mp h12 with h1 | h2
      · split_ifs at h1
        · rcases List.mem_singleton.mp h1 with rfl
          exact severityFor_bands |sc| th hth
        · cases h1
      · split_ifs at h2
        · rcases List.mem_singleton.mp h2 with rfl
          exact AlertType.noConfusion hty
        · cases h2
    · split_ifs at h3
      · rcases List.mem_singleton.mp h3 with rfl
        exact AlertType.noConfusion hty
      · cases h3
  · rcases List.mem_append.mp ha with h12 | h3
    · rcases List.mem_append.mp h12 with h1 | h2
      · split_ifs at h1
        · rcases List.mem_singleton.mp h1 with rfl
          exact AlertType.noConfusion hty
        · cases h1
      · split_ifs at h2
        · rcases List.mem_singleton.mp h2 with rfl
          exact severityFor_bands |cc| th hth
        · cases h2
    · split_ifs at h3
      · rcases List.mem_singleton.mp h3 with rfl
        exact AlertType.noConfusion hty
      · cases h3
  · rcases List.mem_append.mp ha with h12 | h3
    · rcases List.mem_append.mp h12 with h1 | h2
      · split_ifs at h1
        · rcases List.mem_singleton.mp h1 with rfl
          exact AlertType.noConfusion hty
        · cases h1
      · split_ifs at h2
        · rcases List.mem_singleton.mp h2 with rfl
          exact AlertType.noConfusion hty
        · cases h2
    · split_ifs at h3
      · rcases List.mem_singleton.mp h3 with rfl
        rfl
      · cases h3

/-- Witness for the amended C4 theorem at the scenario alert. -/
theorem alert_severity_policy_witness :
    (0 : ℚ) < 1/5 ∧
    (⟨AlertType.sentiment_shift, Level.medium, "significant sentiment shift",
      false⟩ : AlertRecord) ∈ alertsForThreshold trendW (1/5) ∧
    (Level.medium = Level.high ↔ 2 * (1/5 : ℚ) < |(-(3/10) : ℚ)|) :=
  ⟨by decide, by decide,
    ((alert_severity_policy trendW (-(3/10)) (-(1/20)) (1/5)
      ⟨AlertType.sentiment_shift, Level.medium, "significant sentiment shift",
        false⟩ rfl rfl (by decide) (by decide)).1 rfl).1⟩

/-- Every metric is listed in the closed metric enumeration. -/
theorem mem_metricList (m : Metric) : m ∈ metricList := by
  cases m <;> simp [metricList]

/-- Key changes produced for one metric are key changes of the whole diff. -/
theorem diffMetric_subset_diffGuidance (cur prior : List GuidanceItem)
    (m : Metric) (k : KeyChange)
    (hk : k ∈ diffMetric (findMetric m cur) (findMetric m prior)) :
    k ∈ diffGuidance cur prior := by
  unfold diffGuidance
  rw [List.mem_flatten]
  exact ⟨_, List.mem_map.mpr ⟨m, mem_metricList m, rfl⟩, hk⟩

/-- C5: key changes are the per-metric diff of current guidance against the
most recent prior period; a metric entering or leaving the guidance set
yields a high entry, a changed item yields medium exactly when both values
are numeric with a change beyond ten percent and low otherwise, and the
consecutive revenue values 100 and 115 yield one medium entry. -/
theorem guidance_diff_policy :
    (∀ (cur prev : SentimentResult) (rest : List SentimentResult),
      (compareTrend cur (prev :: rest)).key_changes =
        diffGuidance cur.extracted_guidance prev.extracted_guidance) ∧
    (∀ (cur prior : List GuidanceItem) (m : Metric) (g : GuidanceItem),
      findMetric m cur = some g → findMetric m prior = none →
      (⟨"guidance metric added", Level.high⟩ : KeyChange) ∈ diffGuidance cur prior) ∧
    (∀ (cur prior : List GuidanceItem) (m : Metric) (g : GuidanceItem),
      findMetric m cur = none → findMetric m prior = some g →
      (⟨"guidance metric dropped", Level.high⟩ : KeyChange) ∈ diffGuidance cur prior) ∧
    (∀ (cur prior : List GuidanceItem) (m : Metric) (g p : GuidanceItem),
      findMetric m cur = some g → findMetric m prior = some p →
      ¬(g.value = p.value ∧ g.confidence = p.confidence) →
      valueChangeExceedsTenPercent (parseNumeric g.value) (parseNumeric p.value) = true →
      (⟨"guidance value changed", Level.medium⟩ : KeyChange) ∈ diffGuidance cur prior) ∧
    (∀ (cur prior : List GuidanceItem) (m : Metric) (g p : GuidanceItem),
      findMetric m cur = some g → findMetric m prior = some p →
      ¬(g.value = p.value ∧ g.confidence = p.confidence) →
      valueChangeExceedsTenPercent (parseNumeric g.value) (parseNumeric p.value) = false →
      (⟨"guidance changed", Level.low⟩ : KeyChange) ∈ diffGuidance cur prior) ∧
    (∀ a b : ℚ, valueChangeExceedsTenPercent (some a) (some b) = true ↔
      |b| / 10 < |a - b|) ∧
    (diffGuidance [⟨Metric.revenue, "$115M", "unspecified", Level.medium⟩]
        [⟨Metric.revenue, "$100M", "unspecified", Level.medium⟩] =
      [⟨"guidance value changed", Level.medium⟩]) := by
  refine ⟨fun cur prev rest => rfl, ?_, ?_, ?_, ?_, ?_, by decide⟩
  · intro cur prior m g h1 h2
    refine diffMetric_subset_diffGuidance cur prior m _ ?_
    rw [h1, h2]
    simp [diffMetric]
  · intro cur prior m g h1 h2
    refine diffMetric_subset_diffGuidance cur prior m _ ?_
    rw [h1, h2]
    simp [diffMetric]
  · intro cur prior m g p h1 h2 hne hv
    have hb : (g.value == p.value && g.confidence == p.confidence) = false := by
      rcases not_and_or.mp hne with h | h <;>
        simp [Bool.and_eq_false_iff, beq_eq_false_iff_ne, h]
    refine diffMetric_subset_diffGuidance cur prior m _ ?_
    rw [h1, h2]
    simp [diffMetric, hb, hv]
  · intro cur prior m g p h1 h2 hne hv
    have hb : (g.value == p.value && g.confidence == p.confidence) = false := by
      rcases not_and_or.mp hne with h | h <;>
        simp [Bool.and_eq_false_iff, beq_eq_false_iff_ne, h]
    refine diffMetric_subset_diffGuidance cur prior m _ ?_
    rw [h1, h2]
    simp [diffMetric, hb, hv]
  · intro a b
    simp [valueChangeExceedsTenPercent]

/-- Witness for C5: revenue guidance present now and absent before produces
the high entering entry. -/
theorem guidance_diff_policy_witness :
    findMetric Metric.revenue
      [⟨Metric.revenue, "$150M", "unspecified", Level.medium⟩] =
      some ⟨Metric.revenue, "$150M", "unspecified", Level.medium⟩ ∧
    findMetric Metric.revenue ([] : List GuidanceItem) = none ∧
    (⟨"guidance metric added", Level.high⟩ : KeyChange) ∈
      diffGuidance [⟨Metric.revenue, "$150M", "unspecified", Level.medium⟩] [] :=
  ⟨by decide, rfl,
    guidance_diff_policy.2.1
      [⟨Metric.revenue, "$150M", "unspecified", Level.medium⟩] []
      Metric.revenue ⟨Metric.revenue, "$150M", "unspecified", Level.medium⟩
      (by decide) rfl⟩

/-- Boolean comparison agrees with the non-strict ranking relation. -/
theorem quoteLE_eq_true_iff (a b : Quote) : quoteLE a b = true ↔ rankedLE a b := by
  simp [quoteLE, rankedLE]

/-- Totality of the non-strict ranking relation. -/
theorem rankedLE_total (a b : Quote) : rankedLE a b ∨ rankedLE b a := by
  unfold rankedLE
  rcases lt_trichotomy |a.sentiment_score| |b.sentiment_score| with h | h | h
  · right; left; exact h
  · rcases le_total a.seg_index b.seg_index with hi | hi
    · left; right; exact ⟨h, hi⟩
    · right; right; exact ⟨h.symm, hi⟩
  · left; left; exact h

/-- Transitivity of the non-strict ranking relation. -/
theorem rankedLE_trans (a b c : Quote) (h1 : rankedLE a b) (h2 : rankedLE b c) :
    rankedLE a c := by
  unfold rankedLE at h1 h2 ⊢
  rcases h1 with h1 | ⟨h1e, h1i⟩ <;> rcases h2 with h2 | ⟨h2e, h2i⟩
  · left; exact lt_trans h2 h1
  · left; rw [← h2e]; exact h1
  · left; rw [h1e]; exact h2
  · right; exact ⟨h1e.trans h2e, le_trans h1i h2i⟩

/-- From a failed comparison the reversed comparison holds. -/
theorem rankedLE_of_not (a b : Quote) (h : ¬(quoteLE a b = true)) : rankedLE b a := by
  rcases rankedLE_total a b with hab | hba
  · exact absurd ((quoteLE_eq_true_iff a b).mpr hab) h
  · exact hba

/-- Insertion produces a permutation of consing. -/
theorem insertQuote_perm (q : Quote) (l : List Quote) :
    (insertQuote q l).Perm (q :: l) := by
  induction l with
  | nil => exact List.Perm.refl _
  | cons x xs ih =>
      unfold insertQuote
      split_ifs
      · exact List.Perm.refl _
      · exact (List.Perm.cons x ih).trans (List.Perm.swap q x xs)

/-- The insertion sort permutes its input. -/
theorem sortQuotes_perm (l : List Quote) : (sortQuotes l).Perm l := by
  induction l with
  | nil => exact List.Perm.refl _
  | cons q qs ih =>
      exact (insertQuote_perm q (sortQuotes qs)).trans (List.Perm.cons q ih)

/-- Insertion keeps the list pairwise ranked. -/
theorem insertQuote_pairwise (q : Quote) (l : List Quote)
    (hl : l.Pairwise rankedLE) : (insertQuote q l).Pairwise rankedLE := by
  induction l with
  | nil => simp [insertQuote]
  | cons x xs ih =>
      rw [List.pairwise_cons] at hl
      unfold insertQuote
      split_ifs with hq
      · rw [List.pairwise_cons]
        refine ⟨?_, List.pairwise_cons.mpr hl⟩
        intro b hb
        rcases List.mem_cons.mp hb with rfl | hbxs
        · exact (quoteLE_eq_true_iff q b).mp hq
        · exact rankedLE_trans q x b ((quoteLE_eq_true_iff q x).mp hq) (hl.1 b hbxs)
      · rw [List.pairwise_cons]
        refine ⟨?_, ih hl.2⟩
        intro b hb
        have hb2 : b ∈ q :: xs := (insertQuote_perm q xs).mem_iff.mp hb
        rcases List.mem_cons.mp hb2 with rfl | hbxs
        · exact rankedLE_of_not b x hq
        · exact hl.1 b hbxs

/-- The insertion sort output is pairwise ranked. -/
theorem sortQuotes_pairwise (l : List Quote) :
    (sortQuotes l).Pairwise rankedLE := by
  induction l with
  | nil => simp [sortQuotes]
  | cons q qs ih => exact insertQuote_pairwise q (sortQuotes qs) ih

/-- Candidates carry indices at or beyond the start position. -/
theorem quoteCandidates_index_lb (cfg : QuoteConfig) :
    ∀ (i : ℕ) (l : List ScoredSegment), ∀ q ∈ quoteCandidates cfg i l,
      i ≤ q.seg_index := by
  intro i l
  induction l generalizing i with
  | nil => intro q hq; cases hq
  | cons s rest ih =>
      intro q hq
      unfold quoteCandidates at hq
      split_ifs at hq
      · rcases List.mem_cons.mp hq with rfl | hmem
        · exact le_refl i
        · exact le_trans (Nat.le_succ i) (ih (i + 1) q hmem)
      · exact le_trans (Nat.le_succ i) (ih (i + 1) q hq)

/-- Candidate indices appear in strictly increasing segment order. -/
theorem quoteCandidates_index_sorted (cfg : QuoteConfig) :
    ∀ (i : ℕ) (l : List ScoredSegment),
      (quoteCandidates cfg i l).Pairwise (fun a b => a.seg_index < b.seg_index) := by
  intro i l
  induction l generalizing i with
  | nil => simp [quoteCandidates]
  | cons s rest ih =>
      unfold quoteCandidates
      split_ifs
      · rw [List.pairwise_cons]
        refine ⟨?_, ih (i + 1)⟩
        intro b hb
        exact lt_of_lt_of_le (Nat.lt_succ_self i)
          (quoteCandidates_index_lb cfg (i + 1) rest b hb)
      · exact ih (i + 1)

/-- The sorted candidate list is strictly ranked: descending score magnitude
with ties resolved toward the earlier segment. -/
theorem sortQuotes_candidates_strict (cfg : QuoteConfig)
    (scored : List ScoredSegment) :
    (sortQuotes (quoteCandidates cfg 0 scored)).Pairwise rankedBefore := by
  have hperm := sortQuotes_perm (quoteCandidates cfg 0 scored)
  have hle := sortQuotes_pairwise (quoteCandidates cfg 0 scored)
  have hne0 : (quoteCandidates cfg 0 scored).Pairwise
      (fun a b => a.seg_index ≠ b.seg_index) :=
    (quoteCandidates_index_sorted cfg 0 scored).imp (fun h => Nat.ne_of_lt h)
  have hne : (sortQuotes (quoteCandidates cfg 0 scored)).Pairwise
      (fun a b => a.seg_index ≠ b.seg_index) :=
    (hperm.pairwise_iff (fun h => Ne.symm h)).mpr hne0
  refine (hle.and hne).imp ?_
  rintro a b ⟨hab, hne2⟩
  rcases hab with h | ⟨he, hi⟩
  · exact Or.inl h
  · exact Or.inr ⟨he, lt_of_le_of_ne hi hne2⟩

/-- Extracted quotes are bounded by the configured maximum and strictly
ranked. -/
theorem extractQuotes_bounded_sorted (cfg : QuoteConfig)
    (scored : List ScoredSegment) :
    (extractQuotes cfg scored).length ≤ cfg.maxQuotes ∧
    (extractQuotes cfg scored).Pairwise rankedBefore := by
  constructor
  · unfold extractQuotes
    rw [List.length_take]
    exact min_le_left _ _
  · exact List.Pairwise.sublist (List.take_sublist _ _)
      (sortQuotes_candidates_strict cfg scored)

/-- Inversion of a successful analyze call: the sentiment component is the
composition over the scored normalized segments. -/
theorem analyze_ok_sentiment (o : Oracle) (t : Transcript)
    (h : List RawHistoryEntry) (w : List WatchThreshold) (r : AnalysisResult)
    (hr : analyze o t h w = Except.ok r) :
    ∃ scored,
      scoreSegments o (normalizeTranscript t.raw_text t.management_names) =
        some scored ∧
      r.sentiment = composeSentiment defaultQuoteConfig scored := by
  simp only [analyze] at hr
  rcases hsc : scoreSegments o (normalizeTranscript t.raw_text t.management_names)
    with _ | scored
  · rw [hsc] at hr
    simp at hr
  · rw [hsc] at hr
    rcases hvh : validateHistory h with _ | hist
    · rw [hvh] at hr
      simp at hr
    · rw [hvh] at hr
      simp only [Except.ok.injEq] at hr
      refine ⟨scored, rfl, ?_⟩
      rw [← hr]

/-- C6: every SentimentResult produced by a successful analyze call has at
most the default maximum of 10 key quotes, sorted by strictly descending
score magnitude with ties resolved by the earlier original segment. -/
theorem key_quotes_bounded_sorted (o : Oracle) (t : Transcript)
    (h : List RawHistoryEntry) (w : List WatchThreshold) (r : AnalysisResult)
    (hr : analyze o t h w = Except.ok r) :
    r.sentiment.key_quotes.length ≤ defaultQuoteConfig.maxQuotes ∧
    defaultQuoteConfig.maxQuotes = 10 ∧
    r.sentiment.key_quotes.Pairwise rankedBefore := by
  obtain ⟨scored, hsc, hsent⟩ := analyze_ok_sentiment o t h w r hr
  have hb := extractQuotes_bounded_sorted defaultQuoteConfig scored
  rw [hsent]
  exact ⟨hb.1, rfl, hb.2⟩

deriving instance DecidableEq for Except

/-- Concrete full result of the witness transcript under the witness
oracle. -/
def resultW : AnalysisResult :=
  ⟨⟨1/2, 3/5, 1/2, 1, 1, 0,
    [⟨"We expect revenue growth this quarter", Role.management, 1/2, 0⟩],
    [⟨Metric.revenue, "We expect revenue growth this quarter", "this quarter",
      Level.medium⟩]⟩,
   ⟨TrendCategory.insufficient_data, none, none, [], [], 0⟩, []⟩

/-- Witness for C6 at a concrete successful analyze call. -/
theorem key_quotes_bounded_sorted_witness :
    analyze oracleW transcriptW [] [] = Except.ok resultW ∧
    resultW.sentiment.key_quotes.length ≤ defaultQuoteConfig.maxQuotes :=
  ⟨by decide,
   (key_quotes_bounded_sorted oracleW transcriptW [] [] resultW (by decide)).1⟩

/-- Lines split from all-whitespace input hold only whitespace. -/
theorem splitLinesAux_ws : ∀ (cs acc : List Char),
    (∀ c ∈ cs, isWs c = true) → (∀ c ∈ acc, isWs c = true) →
    ∀ l ∈ splitLinesAux cs acc, ∀ c ∈ l, isWs c = true := by
  intro cs
  induction cs with
  | nil =>
      intro acc _ hacc l hl c hc
      simp only [splitLinesAux, List.mem_singleton] at hl
      subst hl
      exact hacc c (List.mem_reverse.mp hc)
  | cons d ds ih =>
      intro acc hcs hacc l hl c hc
      unfold splitLinesAux at hl
      split_ifs at hl
      · rcases List.mem_cons.mp hl with rfl | hl2
        · exact hacc c (List.mem_reverse.mp hc)
        · exact ih [] (fun e he => hcs e (List.mem_cons_of_mem d he))
            (by intro e he; cases he) l hl2 c hc
      · exact ih (d :: acc) (fun e he => hcs e (List.mem_cons_of_mem d he))
          (by
            intro e he
            rcases List.mem_cons.mp he with rfl | he2
            · exact hcs e (List.mem_cons_self e ds)
            · exact hacc e he2)
          l hl c hc

/-- Trimming an all-whitespace character list leaves nothing. -/
theorem trimChars_ws (l : List Char) (hl : ∀ c ∈ l, isWs c = true) :
    trimChars l = [] := by
  unfold trimChars
  rw [List.dropWhile_eq_nil_iff.mpr hl]
  rfl

/-- An all-whitespace line produces no segment. -/
theorem mkSegment_ws (names : List String) (line : List Char)
    (hl : ∀ c ∈ line, isWs c = true) : mkSegment names line = none := by
  unfold mkSegment
  rw [trimChars_ws line hl]
  rfl

/-- Empty or whitespace-only raw text normalizes to the empty segment
sequence. -/
theorem normalizeTranscript_ws (raw : String) (names : List String)
    (hraw : ∀ c ∈ raw.data, isWs c = true) :
    normalizeTranscript raw names = [] := by
  unfold normalizeTranscript splitLines
  rw [List.filterMap_eq_nil_iff]
  intro l hl
  exact mkSegment_ws names l
    (splitLinesAux_ws raw.data [] hraw (by intro c hc; cases hc) l hl)

/-- Scored segments come from the scored input list. -/
theorem scoreSegments_segs (o : Oracle) : ∀ (l : List Segment)
    (scored : List ScoredSegment), scoreSegments o l = some scored →
    ∀ s ∈ scored, s.seg ∈ l := by
  intro l
  induction l with
  | nil =>
      intro scored h s hs
      simp only [scoreSegments, Option.some.injEq] at h
      subst h
      cases hs
  | cons x xs ih =>
      intro scored h s hs
      unfold scoreSegments at h
      rcases ho : o x.text with _ | pc
      · rw [ho] at h
        exact Option.noConfusion h
      · rw [ho] at h
        rcases htail : scoreSegments o xs with _ | tail
        · rw [htail] at h
          exact Option.noConfusion h
        · rw [htail] at h
          simp only [Option.some.injEq] at h
          subst h
          rcases List.mem_cons.mp hs with rfl | hs2
          · exact List.mem_cons_self _ _
          · exact List.mem_cons_of_mem x (ih tail htail s hs2)

/-- Without management segments there are no quote candidates. -/
theorem quoteCandidates_no_mgmt (cfg : QuoteConfig) : ∀ (i : ℕ)
    (l : List ScoredSegment),
    (∀ s ∈ l, s.seg.speaker_role ≠ Role.management) →
    quoteCandidates cfg i l = [] := by
  intro i l
  induction l generalizing i with
  | nil => intro _; rfl
  | cons s rest ih =>
      intro h
      have hc : isQuoteCandidate cfg s = false := by
        unfold isQuoteCandidate
        simp [beq_eq_false_iff_ne, h s (List.mem_cons_self s rest)]
      unfold quoteCandidates
      rw [hc]
      simp only [Bool.false_eq_true, if_false]
      exact ih (i + 1) (fun e he => h e (List.mem_cons_of_mem s he))

/-- Composition over a scored list without management segments yields zero
scores, a zero segment count, and no quotes. -/
theorem composeSentiment_no_mgmt (cfg : QuoteConfig)
    (scored : List ScoredSegment)
    (h : ∀ s ∈ scored, s.seg.speaker_role ≠ Role.management) :
    (composeSentiment cfg scored).overall_sentiment = 0 ∧
    (composeSentiment cfg scored).management_confidence = 0 ∧
    (composeSentiment cfg scored).mgmt_segment_count = 0 ∧
    (composeSentiment cfg scored).key_quotes = [] := by
  have hf : (scored.filter fun s => s.seg.speaker_role == Role.management) = [] := by
    rw [List.filter_eq_nil_iff]
    intro s hs
    simp [beq_eq_false_iff_ne]
    exact h s hs
  have hq : quoteCandidates cfg 0 scored = [] := quoteCandidates_no_mgmt cfg 0 scored h
  refine ⟨?_, ?_, ?_, ?_⟩ <;>
    simp [composeSentiment, hf, weightedScore, extractQuotes, hq, sortQuotes]

/-- C7: whitespace-only transcripts normalize to no segments without error,
and any successful analyze call whose normalized segments carry no
management role reports overall sentiment 0, management confidence 0, a zero
management segment count, and an empty quote list. -/
theorem no_management_zero_scores :
    (∀ (raw : String) (names : List String), (∀ c ∈ raw.data, isWs c = true) →
      normalizeTranscript raw names = []) ∧
    (∀ (o : Oracle) (t : Transcript) (h : List RawHistoryEntry)
      (w : List WatchThreshold) (r : AnalysisResult),
      analyze o t h w = Except.ok r →
      (∀ s ∈ normalizeTranscript t.raw_text t.management_names,
        s.speaker_role ≠ Role.management) →
      r.sentiment.overall_sentiment = 0 ∧
      r.sentiment.management_confidence = 0 ∧
      r.sentiment.mgmt_segment_count = 0 ∧
      r.sentiment.key_quotes = []) := by
  refine ⟨fun raw names hws => normalizeTranscript_ws raw names hws, ?_⟩
  intro o t h w r hr hnm
  obtain ⟨scored, hsc, hsent⟩ := analyze_ok_sentiment o t h w r hr
  have hno : ∀ s ∈ scored, s.seg.speaker_role ≠ Role.management :=
    fun s hs => hnm s.seg (scoreSegments_segs o _ scored hsc s hs)
  rw [hsent]
  exact composeSentiment_no_mgmt defaultQuoteConfig scored hno

/-- Analyst-only transcript used by the C7 witness. -/
def analystTranscriptW : Transcript :=
  ⟨"Analyst: growth concerns remain", ["CEO"]⟩

/-- Zero-valued result of the analyst-only witness transcript. -/
def zeroResultW : AnalysisResult :=
  ⟨⟨0, 0, 0, 0, 0, 0, [], []⟩,
   ⟨TrendCategory.insufficient_data, none, none, [], [], 0⟩, []⟩

/-- Witness for C7 at a whitespace check and an analyst-only transcript. -/
theorem no_management_zero_scores_witness :
    (∀ c ∈ ("  " : String).data, isWs c = true) ∧
    normalizeTranscript "  " ["CEO"] = [] ∧
    analyze oracleW analystTranscriptW [] [] = Except.ok zeroResultW ∧
    zeroResultW.sentiment.overall_sentiment = 0 ∧
    zeroResultW.sentiment.key_quotes = [] :=
  ⟨by decide,
   no_management_zero_scores.1 "  " ["CEO"] (by decide),
   by decide,
   (no_management_zero_scores.2 oracleW analystTranscriptW [] [] zeroResultW
     (by decide) (by decide)).1,
   (no_management_zero_scores.2 oracleW analystTranscriptW [] [] zeroResultW
     (by decide) (by decide)).2.2.2⟩

/-- Scoring fails exactly when the oracle fails on some segment. -/
theorem scoreSegments_none_iff (o : Oracle) : ∀ l : List Segment,
    scoreSegments o l = none ↔ ∃ s ∈ l, o s.text = none := by
  intro l
  induction l with
  | nil => simp [scoreSegments]
  | cons x xs ih =>
      unfold scoreSegments
      rcases ho : o x.text with _ | pc
      · simp [ho]
      · rcases ht : scoreSegments o xs with _ | tail
        · simp [ho, ← ih, ht]
        · simp [ho, ← ih, ht]

/-- Entry validation fails exactly on a missing required field. -/
theorem validateEntry_none_iff (e : RawHistoryEntry) :
    validateEntry e = none ↔
      (e.overall_sentiment = none ∨ e.management_confidence = none) := by
  rcases ho : e.overall_sentiment with _ | s <;>
    rcases hc : e.management_confidence with _ | c <;>
      simp [validateEntry, ho, hc]

/-- History validation fails exactly when some entry misses a required
field. -/
theorem validateHistory_none_iff : ∀ h : List RawHistoryEntry,
    validateHistory h = none ↔
      ∃ e ∈ h, e.overall_sentiment = none ∨ e.management_confidence = none := by
  intro h
  induction h with
  | nil => simp [validateHistory]
  | cons e rest ih =>
      unfold validateHistory
      rcases hv : validateEntry e with _ | s
      · simp only [List.mem_cons, exists_eq_or_imp]
        exact iff_of_true trivial (Or.inl ((validateEntry_none_iff e).mp hv))
      · rcases ht : validateHistory rest with _ | tail
        · simp [hv, ht, ← ih]
        · have hnotnone : ¬(e.overall_sentiment = none ∨
              e.management_confidence = none) := by
            intro hcontra
            rw [← validateEntry_none_iff] at hcontra
            rw [hv] at hcontra
            exact Option.noConfusion hcontra
          simp [hv, ht, ← ih, hnotnone]

/-- C9: the orchestrator is all-or-nothing with a typed error policy; an
oracle failure on some segment aborts with scoring_unavailable, a history
entry missing a required field aborts with malformed_history (once scoring
passes), a threshold entry outside the unit interval is skipped so the call
equals the call on the filtered list, and a whitespace-only transcript with
well-formed history completes with a full result. -/
theorem analyze_error_policy :
    (∀ (o : Oracle) (t : Transcript) (h : List RawHistoryEntry)
      (w : List WatchThreshold),
      (∃ s ∈ normalizeTranscript t.raw_text t.management_names,
        o s.text = none) →
      analyze o t h w = Except.error AnalysisError.scoring_unavailable) ∧
    (∀ (o : Oracle) (t : Transcript) (h : List RawHistoryEntry)
      (w : List WatchThreshold),
      (∀ s ∈ normalizeTranscript t.raw_text t.management_names,
        (o s.text).isSome = true) →
      (∃ e ∈ h, e.overall_sentiment = none ∨ e.management_confidence = none) →
      analyze o t h w = Except.error AnalysisError.malformed_history) ∧
    (∀ (o : Oracle) (t : Transcript) (h : List RawHistoryEntry)
      (w : List WatchThreshold),
      analyze o t h w = analyze o t h (w.filter validThreshold)) ∧
    (∀ (o : Oracle) (t : Transcript) (h : List RawHistoryEntry)
      (w : List WatchThreshold),
      (∀ c ∈ t.raw_text.data, isWs c = true) →
      (∀ e ∈ h, (e.overall_sentiment).isSome = true ∧
        (e.management_confidence).isSome = true) →
      ∃ r, analyze o t h w = Except.ok r) := by
  refine ⟨?_, ?_, ?_, ?_⟩
  · intro o t h w hfail
    have hsc : scoreSegments o
        (normalizeTranscript t.raw_text t.management_names) = none :=
      (scoreSegments_none_iff o _).mpr hfail
    simp only [analyze]
    rw [hsc]
  · intro o t h w hok hmal
    have hvh : validateHistory h = none := (validateHistory_none_iff h).mpr hmal
    rcases hsc : scoreSegments o
        (normalizeTranscript t.raw_text t.management_names) with _ | scored
    · exfalso
      obtain ⟨s, hs, hnone⟩ := (scoreSegments_none_iff o _).mp hsc
      have := hok s hs
      rw [hnone] at this
      exact Bool.noConfusion this
    · simp only [analyze]
      rw [hsc, hvh]
  · intro o t h w
    simp only [analyze]
    rw [List.filter_filter]
    simp only [Bool.and_self]
  · intro o t h w hws hall
    have hseg : normalizeTranscript t.raw_text t.management_names = [] :=
      normalizeTranscript_ws t.raw_text t.management_names hws
    rcases hvh : validateHistory h with _ | hist
    · exfalso
      obtain ⟨e, he, hor⟩ := (validateHistory_none_iff h).mp hvh
      rcases hor with h1 | h1
      · have := (hall e he).1
        rw [h1] at this
        exact Bool.noConfusion this
      · have := (hall e he).2
        rw [h1] at this
        exact Bool.noConfusion this
    · refine ⟨⟨composeSentiment defaultQuoteConfig [],
        compareTrend (composeSentiment defaultQuoteConfig []) hist,
        generateAlerts (compareTrend (composeSentiment defaultQuoteConfig []) hist)
          (w.filter validThreshold)⟩, ?_⟩
      simp only [analyze]
      rw [hseg]
      simp only [scoreSegments]
      rw [hvh]

/-- Always-failing oracle used by the C9 witness. -/
def oracleFailW : Oracle := fun _ => none

/-- Malformed history entry used by the C9 witness: the overall sentiment
field is missing. -/
def malformedW : RawHistoryEntry := ⟨none, some 0, []⟩

/-- Witness for C9 at concrete failing and succeeding inputs. -/
theorem analyze_error_policy_witness :
    analyze oracleFailW transcriptW [] [] =
      Except.error AnalysisError.scoring_unavailable ∧
    analyze oracleW transcriptW [malformedW] [] =
      Except.error AnalysisError.malformed_history ∧
    analyze oracleW transcriptW [] [⟨1, 5⟩] =
      analyze oracleW transcriptW [] ([⟨1, 5⟩].filter validThreshold) ∧
    ∃ r, analyze oracleW ⟨"  ", []⟩ [] [] = Except.ok r :=
  ⟨analyze_error_policy.1 oracleFailW transcriptW [] [] (by decide),
   analyze_error_policy.2.1 oracleW transcriptW [malformedW] [] (by decide)
     (by decide),
   analyze_error_policy.2.2.1 oracleW transcriptW [] [⟨1, 5⟩],
   analyze_error_policy.2.2.2 oracleW ⟨"  ", []⟩ [] [] (by decide) (by decide)⟩
